import Mathlib

/-!
Verification development for the agent process lifecycle and output-streaming
pipeline of a desktop agent-orchestration application.

The definitions below are shallow embeddings of the Rust sources
(`agents/json_types.rs`, `agents/streaming.rs`, `agents/process.rs`,
`commands/agent.rs`): pure functions are translated directly, stateful code is
modelled by explicit state passing, the SQLite tables are modelled as
in-memory rows, and wall-clock instants are modelled as integers.
-/

namespace Caspian

/-! ## JSON values (model of `serde_json::Value`)

Numbers are modelled as integers: every numeric field the decoders below
consume (`duration_ms`, `num_turns`, ...) is an integer in the protocol. -/

inductive Json where
  | null : Json
  | bool (b : Bool) : Json
  | num (n : Int) : Json
  | str (s : String) : Json
  | arr (xs : List Json) : Json
  | obj (fields : List (String × Json)) : Json

/-- First binding for a key in an object field list (model of `Map::get`). -/
def lookupF : List (String × Json) → String → Option Json
  | [], _ => none
  | (k, v) :: rest, key => if k = key then some v else lookupF rest key

/-- Model of `serde_json::Value::get` on objects. -/
def getF : Json → String → Option Json
  | Json.obj fields, k => lookupF fields k
  | _, _ => none

/-- Model of `Value::as_str`. -/
def jAsStr : Json → Option String
  | Json.str s => some s
  | _ => none

/-- Model of `Value::as_array`. -/
def jAsArr : Json → Option (List Json)
  | Json.arr xs => some xs
  | _ => none

/-- Model of `Value::as_bool`. -/
def jAsBool : Json → Option Bool
  | Json.bool b => some b
  | _ => none

/-! ## JSON text parser (model of `serde_json::from_str`)

A total, fuel-indexed recursive-descent parser over the character list of the
line.  Parse failure is `none`; the embedding only relies on the direction
"if the text does not parse, no event is produced", plus evaluation on the
concrete protocol lines appearing in the claims. -/

def quoteChar : Char := Char.ofNat 34

def backslashChar : Char := Char.ofNat 92

def lbraceChar : Char := Char.ofNat 123

def rbraceChar : Char := Char.ofNat 125

def isJsonWs (c : Char) : Bool :=
  c = ' ' || c = '\t' || c = '\n' || c = '\r'

def dropWs (cs : List Char) : List Char := cs.dropWhile isJsonWs

/-- Scan a string body after the opening quote, handling the escapes used by
the protocol.  Returns the decoded characters and the rest of the input. -/
def scanStr (acc : List Char) : List Char → Option (List Char × List Char)
  | [] => none
  | c :: rest =>
    if c = quoteChar then some (acc.reverse, rest)
    else if c = backslashChar then
      match rest with
      | [] => none
      | e :: rest2 =>
        if e = quoteChar then scanStr (quoteChar :: acc) rest2
        else if e = backslashChar then scanStr (backslashChar :: acc) rest2
        else if e = '/' then scanStr ('/' :: acc) rest2
        else if e = 'n' then scanStr ('\n' :: acc) rest2
        else if e = 't' then scanStr ('\t' :: acc) rest2
        else if e = 'r' then scanStr ('\r' :: acc) rest2
        else none
    else scanStr (c :: acc) rest

/-- Scan a nonempty digit run as a natural number. -/
def scanNat (cs : List Char) : Option (Nat × List Char) :=
  let ds := cs.takeWhile Char.isDigit
  let rest := cs.dropWhile Char.isDigit
  if ds.isEmpty then none
  else some (ds.foldl (fun a c => a * 10 + (c.toNat - 48)) 0, rest)

mutual

def parseV : Nat → List Char → Option (Json × List Char)
  | 0, _ => none
  | fuel + 1, cs =>
    match dropWs cs with
    | [] => none
    | c :: rest =>
      if c = quoteChar then
        (scanStr [] rest).map (fun p => (Json.str (String.mk p.1), p.2))
      else if c = lbraceChar then
        match dropWs rest with
        | [] => none
        | d :: r2 =>
          if d = rbraceChar then some (Json.obj [], r2)
          else
            (parseFields fuel (d :: r2)).map (fun p => (Json.obj p.1, p.2))
      else if c = '[' then
        match dropWs rest with
        | [] => none
        | d :: r2 =>
          if d = ']' then some (Json.arr [], r2)
          else
            (parseItems fuel (d :: r2)).map (fun p => (Json.arr p.1, p.2))
      else if c = 'n' then
        match rest with
        | 'u' :: 'l' :: 'l' :: r => some (Json.null, r)
        | _ => none
      else if c = 't' then
        match rest with
        | 'r' :: 'u' :: 'e' :: r => some (Json.bool true, r)
        | _ => none
      else if c = 'f' then
        match rest with
        | 'a' :: 'l' :: 's' :: 'e' :: r => some (Json.bool false, r)
        | _ => none
      else if c = '-' then
        (scanNat rest).map (fun p => (Json.num (-(p.1 : Int)), p.2))
      else if c.isDigit then
        (scanNat (c :: rest)).map (fun p => (Json.num (p.1 : Int), p.2))
      else none

def parseItems : Nat → List Char → Option (List Json × List Char)
  | 0, _ => none
  | fuel + 1, cs =>
    match parseV fuel cs with
    | none => none
    | some (v, r) =>
      match dropWs r with
      | ',' :: r2 =>
        match parseItems fuel r2 with
        | some (vs, r3) => some (v :: vs, r3)
        | none => none
      | d :: r2 =>
        if d = ']' then some ([v], r2) else none
      | [] => none

def parseFields : Nat → List Char → Option (List (String × Json) × List Char)
  | 0, _ => none
  | fuel + 1, cs =>
    match dropWs cs with
    | c :: r0 =>
      if c = quoteChar then
        match scanStr [] r0 with
        | none => none
        | some (key, r1) =>
          match dropWs r1 with
          | ':' :: r2 =>
            match parseV fuel r2 with
            | none => none
            | some (v, r3) =>
              match dropWs r3 with
              | ',' :: r4 =>
                match parseFields fuel r4 with
                | some (ms, r5) => some ((String.mk key, v) :: ms, r5)
                | none => none
              | d :: r4 =>
                if d = rbraceChar then some ([(String.mk key, v)], r4)
                else none
              | [] => none
          | _ => none
      else none
    | [] => none

end

/-- Parse one complete JSON document from a character list; trailing
whitespace is allowed, anything else fails (as `serde_json::from_str`). -/
def parseJsonChars (cs : List Char) : Option Json :=
  match parseV (cs.length + 1) cs with
  | some (j, r) => if (dropWs r).isEmpty then some j else none
  | none => none

/-- Model of `str::trim` on the character list. -/
def trimChars (cs : List Char) : List Char :=
  ((cs.dropWhile isJsonWs).reverse.dropWhile isJsonWs).reverse

/-! ## Protocol event types (model of `agents/json_types.rs`) -/

/-- `SystemEvent`: emitted at session start. -/
structure SystemEvent where
  subtype : String
  session_id : Option String
  tools : List String
  model : Option String
  cwd : Option String
deriving DecidableEq

/-- `UsageInfo`: token usage information. -/
structure UsageInfo where
  input_tokens : Option Nat
  output_tokens : Option Nat
  cache_creation_input_tokens : Option Nat
  cache_read_input_tokens : Option Nat
deriving DecidableEq

/-- `ContentBlock`: a content block within an assistant message. -/
inductive ContentBlock where
  | thinking (thinking : String) (signature : Option String) : ContentBlock
  | toolUse (id : String) (name : String) (input : Json) : ContentBlock
  | text (text : String) : ContentBlock

/-- `AssistantMessage`: assistant message containing content blocks. -/
structure AssistantMessage where
  id : String
  content : List ContentBlock
  model : Option String
  stop_reason : Option String
  usage : Option UsageInfo

/-- `AssistantEvent`. -/
structure AssistantEvent where
  message : AssistantMessage
  session_id : Option String

/-- `ToolResultBlock`. -/
inductive ToolResultBlock where
  | toolResult (tool_use_id : String) (content : String) (is_error : Option Bool) :
      ToolResultBlock
deriving DecidableEq

/-- `UserMessage`. -/
structure UserMessage where
  content : List ToolResultBlock
deriving DecidableEq

/-- `UserEvent`. -/
structure UserEvent where
  message : UserMessage
  session_id : Option String
deriving DecidableEq

/-- `ResultEvent`: emitted when the agent completes.  `total_cost_usd` keeps
only the parsed number (the model's numbers are integers). -/
structure ResultEvent where
  subtype : String
  is_error : Bool
  duration_ms : Option Nat
  duration_api_ms : Option Nat
  num_turns : Option Nat
  result : Option String
  session_id : Option String
  total_cost_usd : Option Int
deriving DecidableEq

/-- `ClaudeEvent`: top-level event of the JSON stream. -/
inductive ClaudeEvent where
  | system (e : SystemEvent) : ClaudeEvent
  | assistant (e : AssistantEvent) : ClaudeEvent
  | user (e : UserEvent) : ClaudeEvent
  | result (e : ResultEvent) : ClaudeEvent

/-! ## Serde-style decoding of the event types

Each helper mirrors serde's field semantics: a required field fails when
absent or ill-typed; an `Option` field with `#[serde(default)]` is `none`
when absent or `null`; a `Vec` field with `#[serde(default)]` is `[]` when
absent; a `bool` field with `#[serde(default)]` is `false` when absent.
Unknown extra fields are ignored (serde's default). -/

/-- Required `String` field. -/
def reqStrF (j : Json) (k : String) : Option String := (getF j k).bind jAsStr

/-- `Option<String>` field with default. -/
def optStrF (j : Json) (k : String) : Option (Option String) :=
  match getF j k with
  | none => some none
  | some Json.null => some none
  | some (Json.str s) => some (some s)
  | some _ => none

/-- `Option<u64>` / `Option<u32>` field with default. -/
def optNatF (j : Json) (k : String) : Option (Option Nat) :=
  match getF j k with
  | none => some none
  | some Json.null => some none
  | some (Json.num n) => if 0 ≤ n then some (some n.toNat) else none
  | some _ => none

/-- `Option<f64>` field with default (the model's numbers are integers). -/
def optNumF (j : Json) (k : String) : Option (Option Int) :=
  match getF j k with
  | none => some none
  | some Json.null => some none
  | some (Json.num n) => some (some n)
  | some _ => none

/-- `Option<bool>` field with default. -/
def optBoolF (j : Json) (k : String) : Option (Option Bool) :=
  match getF j k with
  | none => some none
  | some Json.null => some none
  | some (Json.bool b) => some (some b)
  | some _ => none

/-- `bool` field with `#[serde(default)]` (absent means `false`). -/
def boolDefF (j : Json) (k : String) : Option Bool :=
  match getF j k with
  | none => some false
  | some (Json.bool b) => some b
  | some _ => none

/-- `Vec<String>` field with `#[serde(default)]`. -/
def vecStrF (j : Json) (k : String) : Option (List String) :=
  match getF j k with
  | none => some []
  | some (Json.arr xs) => xs.mapM jAsStr
  | some _ => none

def decodeSystemEvent (j : Json) : Option SystemEvent := do
  let subtype ← reqStrF j "subtype"
  let session_id ← optStrF j "session_id"
  let tools ← vecStrF j "tools"
  let model ← optStrF j "model"
  let cwd ← optStrF j "cwd"
  pure ⟨subtype, session_id, tools, model, cwd⟩

def decodeUsageInfo (j : Json) : Option UsageInfo := do
  let a ← optNatF j "input_tokens"
  let b ← optNatF j "output_tokens"
  let c ← optNatF j "cache_creation_input_tokens"
  let d ← optNatF j "cache_read_input_tokens"
  pure ⟨a, b, c, d⟩

/-- `Option<Struct>` field with default. -/
def optUsageF (j : Json) (k : String) : Option (Option UsageInfo) :=
  match getF j k with
  | none => some none
  | some Json.null => some none
  | some v => (decodeUsageInfo v).map some

/-- Internally tagged (`tag = "type"`) decoding of one content block. -/
def decodeContentBlock (j : Json) : Option ContentBlock := do
  let tag ← reqStrF j "type"
  if tag = "thinking" then do
    let th ← reqStrF j "thinking"
    let sig ← optStrF j "signature"
    pure (ContentBlock.thinking th sig)
  else if tag = "tool_use" then do
    let id ← reqStrF j "id"
    let name ← reqStrF j "name"
    let input ← getF j "input"
    pure (ContentBlock.toolUse id name input)
  else if tag = "text" then do
    let t ← reqStrF j "text"
    pure (ContentBlock.text t)
  else none

def decodeAssistantMessage (j : Json) : Option AssistantMessage := do
  let id ← reqStrF j "id"
  let blocks ← (getF j "content").bind jAsArr
  let content ← blocks.mapM decodeContentBlock
  let model ← optStrF j "model"
  let stop_reason ← optStrF j "stop_reason"
  let usage ← optUsageF j "usage"
  pure ⟨id, content, model, stop_reason, usage⟩

def decodeAssistantEvent (j : Json) : Option AssistantEvent := do
  let msg ← (getF j "message").bind decodeAssistantMessage
  let session_id ← optStrF j "session_id"
  pure ⟨msg, session_id⟩

def decodeToolResultBlock (j : Json) : Option ToolResultBlock := do
  let tag ← reqStrF j "type"
  if tag = "tool_result" then do
    let tuid ← reqStrF j "tool_use_id"
    let content ← reqStrF j "content"
    let is_error ← optBoolF j "is_error"
    pure (ToolResultBlock.toolResult tuid content is_error)
  else none

def decodeUserMessage (j : Json) : Option UserMessage := do
  match getF j "content" with
  | none => pure ⟨[]⟩
  | some (Json.arr xs) => do
    let content ← xs.mapM decodeToolResultBlock
    pure ⟨content⟩
  | some _ => none

def decodeUserEvent (j : Json) : Option UserEvent := do
  let msg ← (getF j "message").bind decodeUserMessage
  let session_id ← optStrF j "session_id"
  pure ⟨msg, session_id⟩

def decodeResultEvent (j : Json) : Option ResultEvent := do
  let subtype ← reqStrF j "subtype"
  let is_error ← boolDefF j "is_error"
  let duration_ms ← optNatF j "duration_ms"
  let duration_api_ms ← optNatF j "duration_api_ms"
  let num_turns ← optNatF j "num_turns"
  let result ← optStrF j "result"
  let session_id ← optStrF j "session_id"
  let cost ← optNumF j "total_cost_usd"
  pure ⟨subtype, is_error, duration_ms, duration_api_ms, num_turns, result,
        session_id, cost⟩

/-- Internally tagged (`tag = "type"`, snake_case) decoding of a top-level
event, mirroring the serde derive on `ClaudeEvent`. -/
def claudeEventFromJson (j : Json) : Option ClaudeEvent := do
  let tag ← reqStrF j "type"
  if tag = "system" then (decodeSystemEvent j).map ClaudeEvent.system
  else if tag = "assistant" then (decodeAssistantEvent j).map ClaudeEvent.assistant
  else if tag = "user" then (decodeUserEvent j).map ClaudeEvent.user
  else if tag = "result" then (decodeResultEvent j).map ClaudeEvent.result
  else none

/-- `parse_claude_event` (json_types.rs): trim the line, treat empty lines as
no event, and decode the JSON; failure at any stage yields `none`. -/
def parse_claude_event (line : String) : Option ClaudeEvent :=
  let trimmed := trimChars line.data
  if trimmed.isEmpty then none
  else (parseJsonChars trimmed).bind claudeEventFromJson

/-! ## Structured events and the tool-call tracker (model of `agents/streaming.rs`) -/

/-- `UserInputOption`: a single option in a user input request. -/
structure UserInputOption where
  label : String
  description : Option String
deriving DecidableEq

/-- `StructuredEvent`: the decoded event emitted to the frontend. -/
inductive StructuredEvent where
  | init (session_id : String) (model : Option String) (tools : List String) :
      StructuredEvent
  | thinking (content : String) (message_id : String) : StructuredEvent
  | toolStart (tool_id : String) (tool_name : String) (tool_input : Json)
      (message_id : String) : StructuredEvent
  | toolComplete (tool_id : String) (tool_output : String) (is_error : Bool)
      (duration_ms : Option Nat) : StructuredEvent
  | text (content : String) (message_id : String) : StructuredEvent
  | complete (duration_ms : Option Nat) (num_turns : Option Nat)
      (is_error : Bool) (result : Option String) : StructuredEvent
  | userInputRequest (tool_id : String) (question : String)
      (header : Option String) (options : List UserInputOption)
      (multi_select : Bool) (message_id : String) : StructuredEvent

/-- `ToolCallTracker`: maps a tool_use_id to (tool name, start instant,
message id).  Instants are model integers. -/
structure ToolCallTracker where
  active_tools : List (String × String × Nat × String)

def ToolCallTracker.new : ToolCallTracker := ⟨[]⟩

/-- `HashMap::insert` semantics: replace any previous binding for the id. -/
def ToolCallTracker.start_tool (t : ToolCallTracker) (id name : String)
    (now : Nat) (message_id : String) : ToolCallTracker :=
  ⟨(id, name, now, message_id) :: t.active_tools.filter (fun p => p.1 ≠ id)⟩

/-- `HashMap::remove` plus elapsed-duration computation; returns
`(name, duration_ms, message_id)` when the id was being tracked. -/
def ToolCallTracker.complete_tool (t : ToolCallTracker) (id : String)
    (now : Nat) : Option (String × Nat × String) × ToolCallTracker :=
  match t.active_tools.find? (fun p => p.1 = id) with
  | some (_, name, start, mid) =>
    (some (name, now - start, mid), ⟨t.active_tools.filter (fun p => p.1 ≠ id)⟩)
  | none => (none, t)

/-- One entry of the `options` array: requires a string `label`, keeps an
optional string `description` (malformed entries are filtered out). -/
def parseUserInputOption (opt : Json) : Option UserInputOption :=
  match (getF opt "label").bind jAsStr with
  | none => none
  | some label => some ⟨label, (getF opt "description").bind jAsStr⟩

/-- `parse_ask_user_question` (streaming.rs): sub-parse of an
`AskUserQuestion` tool input into a `UserInputRequest` event.  Each `match`
arm returning `none` mirrors a `?` early return in the source. -/
def parse_ask_user_question (tool_id : String) (input : Json)
    (message_id : String) : Option StructuredEvent :=
  match (getF input "questions").bind jAsArr with
  | none => none
  | some questions =>
    match questions.head? with
    | none => none
    | some first_question =>
      match (getF first_question "question").bind jAsStr with
      | none => none
      | some question_text =>
        let header := (getF first_question "header").bind jAsStr
        let multi_select :=
          ((getF first_question "multiSelect").bind jAsBool).getD false
        match (getF first_question "options").bind jAsArr with
        | none => none
        | some options_array =>
          let options := options_array.filterMap parseUserInputOption
          if options.isEmpty then none
          else
            some (StructuredEvent.userInputRequest tool_id question_text
              header options multi_select message_id)

/-- `parse_and_process_json` (streaming.rs): decode one stdout line into an
optional structured event, updating the tool tracker and the current message
id.  The Rust loop over assistant content blocks returns from every arm, so
only the head block is ever examined of the reconstruction; this mirrors the
source exactly. -/
def parse_and_process_json (content : String) (tracker : ToolCallTracker)
    (current_message_id : Option String) (now : Nat) :
    Option StructuredEvent × ToolCallTracker × Option String :=
  match parse_claude_event content with
  | none => (none, tracker, current_message_id)
  | some (ClaudeEvent.system sys) =>
    if sys.subtype = "init" then
      (some (StructuredEvent.init (sys.session_id.getD "") sys.model sys.tools),
       tracker, current_message_id)
    else (none, tracker, current_message_id)
  | some (ClaudeEvent.assistant a) =>
    let message_id := a.message.id
    let cmi := some message_id
    match a.message.content.head? with
    | none => (none, tracker, cmi)
    | some (ContentBlock.thinking th _) =>
      (some (StructuredEvent.thinking th message_id), tracker, cmi)
    | some (ContentBlock.toolUse id name input) =>
      let tracker2 := tracker.start_tool id name now message_id
      if name = "AskUserQuestion" then
        match parse_ask_user_question id input message_id with
        | some ev => (some ev, tracker2, cmi)
        | none =>
          (some (StructuredEvent.toolStart id name input message_id), tracker2, cmi)
      else
        (some (StructuredEvent.toolStart id name input message_id), tracker2, cmi)
    | some (ContentBlock.text t) =>
      (some (StructuredEvent.text t message_id), tracker, cmi)
  | some (ClaudeEvent.user u) =>
    match u.message.content.head? with
    | none => (none, tracker, current_message_id)
    | some (ToolResultBlock.toolResult tuid rcontent is_error) =>
      let r := tracker.complete_tool tuid now
      let duration_ms := r.1.map (fun p => p.2.1)
      (some (StructuredEvent.toolComplete tuid rcontent (is_error.getD false)
        duration_ms), r.2, current_message_id)
  | some (ClaudeEvent.result res) =>
    (some (StructuredEvent.complete res.duration_ms res.num_turns res.is_error
      res.result), tracker, current_message_id)

/-! ## Output streamer (model of `OutputStreamer::start_streaming`)

The streamer thread drains the adapter's channel.  The model processes the
finite list of received outputs in order; reaching the end of the list is the
channel-closure (`Err(_)` on `recv`) case.  Observable side effects are
collected in `StreamEffects`; the internal flags are `StreamState`. -/

/-- `AgentOutputType` (adapter.rs). -/
inductive AgentOutputType where
  | stdout | stderr | system | complete | error | pending
deriving DecidableEq

/-- `AgentOutput` (adapter.rs). -/
structure AgentOutput where
  output_type : AgentOutputType
  content : String
  timestamp : String

/-- `MessageType` (chat/mod.rs), with its `as_str` rendering. -/
inductive MessageType where
  | text | system | code | error
deriving DecidableEq

def MessageType.as_str : MessageType → String
  | .text => "text"
  | .system => "system"
  | .code => "code"
  | .error => "error"

/-- Local state of the streamer loop. -/
structure StreamState where
  tracker : ToolCallTracker
  current_message_id : Option String
  pending_user_input : Bool
  complete_emitted : Bool

def initialStreamState : StreamState :=
  ⟨ToolCallTracker.new, none, false, false⟩

/-- Observable effects of the streamer: external session ids persisted via
`update_claude_session_id`, `(status, success)` pairs passed to
`update_session_status`, message-insert requests `(content, type, internal)`
handed to `insert_agent_message`, and `(success, message)` completion
notifications emitted on `agent:complete`. -/
structure StreamEffects where
  claudeIdWrites : List String
  statusWrites : List (String × Bool)
  inserts : List (String × MessageType × Bool)
  completeEmits : List (Bool × Option String)

def StreamEffects.empty : StreamEffects := ⟨[], [], [], []⟩

def StreamEffects.append (a b : StreamEffects) : StreamEffects :=
  ⟨a.claudeIdWrites ++ b.claudeIdWrites, a.statusWrites ++ b.statusWrites,
   a.inserts ++ b.inserts, a.completeEmits ++ b.completeEmits⟩

/-- Message classification per output type: `(message type, should_insert)`. -/
def messageTypeFor : AgentOutputType → MessageType × Bool
  | .stdout => (.code, true)
  | .stderr => (.error, true)
  | .system => (.system, true)
  | .complete => (.system, false)
  | .error => (.error, true)
  | .pending => (.system, true)

/-- Whether a decoded event is a `UserInputRequest`. -/
def isUIR : Option StructuredEvent → Bool
  | some (StructuredEvent.userInputRequest _ _ _ _ _ _) => true
  | _ => false

/-- Whether a decoded event marks the message as internal (UI-filtered). -/
def isInternalFor (structured : Option StructuredEvent)
    (ot : AgentOutputType) : Bool :=
  match structured with
  | some (StructuredEvent.init _ _ _) => true
  | some (StructuredEvent.complete _ _ _ _) => true
  | some _ => false
  | none => ot = .stdout || ot = .system

/-- One iteration of the streamer loop body for a received output.  Returns
the updated state, the effects of this iteration, and whether the loop
breaks (a `Complete` or `Error` output ends the loop). -/
def streamStep (o : AgentOutput) (st : StreamState) (now : Nat) :
    StreamState × StreamEffects × Bool :=
  let parsed :=
    if o.output_type = AgentOutputType.stdout then
      parse_and_process_json o.content st.tracker st.current_message_id now
    else (none, st.tracker, st.current_message_id)
  let structured := parsed.1
  let tracker := parsed.2.1
  let cmi := parsed.2.2
  let claudeIdWrites :=
    match structured with
    | some (StructuredEvent.init sid _ _) => if sid.isEmpty then [] else [sid]
    | _ => []
  let pending := st.pending_user_input || isUIR structured
  let mt := messageTypeFor o.output_type
  let is_internal := isInternalFor structured o.output_type
  let inserts :=
    if mt.2 && !(trimChars o.content.data).isEmpty then
      [(o.content, mt.1, is_internal)]
    else []
  match o.output_type with
  | AgentOutputType.complete =>
    (⟨tracker, cmi, pending, true⟩,
     ⟨claudeIdWrites, [("completed", true)], inserts,
      if st.complete_emitted then []
      else [(true, some "Agent completed successfully")]⟩,
     true)
  | AgentOutputType.error =>
    (⟨tracker, cmi, pending, true⟩,
     ⟨claudeIdWrites, [("failed", false)], inserts,
      if st.complete_emitted then [] else [(false, some o.content)]⟩,
     true)
  | _ =>
    (⟨tracker, cmi, pending, st.complete_emitted⟩,
     ⟨claudeIdWrites, [], inserts, []⟩,
     false)

/-- Drain the channel: process outputs in order until the loop breaks or the
list ends (channel closure).  Returns the final state, accumulated effects,
and whether the loop broke before closure. -/
def drain (now : Nat) : List AgentOutput → StreamState →
    StreamState × StreamEffects × Bool
  | [], st => (st, StreamEffects.empty, false)
  | o :: rest, st =>
    let r := streamStep o st now
    if r.2.2 then (r.1, r.2.1, true)
    else
      let r2 := drain (now + 1) rest r.1
      (r2.1, r.2.1.append r2.2.1, r2.2.2)

/-- Effects of the channel-closure (`Err`) arm of the loop. -/
def closureEffects (st : StreamState) : StreamEffects :=
  if st.pending_user_input then ⟨[], [("pending", true)], [], []⟩
  else
    ⟨[], [("completed", true)], [],
     if st.complete_emitted then [] else [(true, some "Agent process ended")]⟩

/-- Whole-session effects of `start_streaming` on a finite output list. -/
def start_streaming (events : List AgentOutput) : StreamEffects :=
  let r := drain 0 events initialStreamState
  if r.2.2 then r.2.1 else r.2.1.append (closureEffects r.1)

/-! ## Adapter configuration and the process registry (model of
`agents/adapter.rs` and `agents/process.rs`) -/

/-- `AttachmentData`. -/
structure AttachmentData where
  name : String
  content : String
  file_type : String
  size : Nat
deriving DecidableEq

/-- `AgentMode`. -/
inductive AgentMode where
  | normal | plan | accept | autoApprove
deriving DecidableEq

/-- `AgentConfig` (working directory kept as a string path). -/
structure AgentConfig where
  node_id : String
  working_dir : String
  goal : String
  context : Option String
  headless : Bool
  timeout_secs : Option Nat
  resume_session_id : Option String
  attachments : List AttachmentData
  model : Option String
  agent_mode : AgentMode
deriving DecidableEq

/-- `AgentConfig::new`. -/
def AgentConfig.new (node_id working_dir goal : String) : AgentConfig :=
  ⟨node_id, working_dir, goal, none, true, none, none, [], none, .normal⟩

def AgentConfig.with_resume_session (c : AgentConfig) (sid : String) :
    AgentConfig := { c with resume_session_id := some sid }

def AgentConfig.with_context (c : AgentConfig) (ctx : String) : AgentConfig :=
  { c with context := some ctx }

def AgentConfig.with_model (c : AgentConfig) (m : String) : AgentConfig :=
  { c with model := some m }

/-- `AgentAdapterType`. -/
inductive AgentAdapterType where
  | claudeCode
deriving DecidableEq

/-- `AgentSessionStatus`. -/
inductive AgentSessionStatus where
  | idle | running | completed | failed | terminated | pending
deriving DecidableEq

/-- `AgentSessionStatus::from_str`. -/
def AgentSessionStatus.from_str (s : String) : Option AgentSessionStatus :=
  if s = "idle" then some .idle
  else if s = "running" then some .running
  else if s = "completed" then some .completed
  else if s = "failed" then some .failed
  else if s = "terminated" then some .terminated
  else if s = "pending" then some .pending
  else none

/-- `AgentSession`: the session record handed to callers. -/
structure AgentSession where
  id : String
  node_id : String
  adapter_type : AgentAdapterType
  process_id : Option Nat
  status : AgentSessionStatus
  started_at : String
  ended_at : Option String
deriving DecidableEq

/-- `AgentError` (adapter.rs). -/
inductive AgentError where
  | spawnError (msg : String)
  | notFound (msg : String)
  | alreadyRunning (node_id : String)
  | terminateError (msg : String)
  | ioError (msg : String)
  | configError (msg : String)
deriving DecidableEq

/-- `AgentHandle`: the receiver is modelled by a flag recording whether it
has already been taken (`Option<Receiver>` in the source). -/
structure AgentHandle where
  id : String
  node_id : String
  process_id : Nat
  receiver_taken : Bool
deriving DecidableEq

/-- `SessionMetadata` (process.rs). -/
structure SessionMetadata where
  adapter_type : AgentAdapterType
  started_at : String
deriving DecidableEq

/-- Association-list update with `HashMap::insert` semantics. -/
def insertAssoc {α : Type} (m : List (String × α)) (k : String) (v : α) :
    List (String × α) :=
  (k, v) :: m.filter (fun p => p.1 ≠ k)

/-- Association-list lookup. -/
def findAssoc {α : Type} (m : List (String × α)) (k : String) : Option α :=
  (m.find? (fun p => p.1 = k)).map (fun p => p.2)

/-- `ProcessManager` state: both maps are guarded by one critical section in
the source; the model mutates them together. -/
structure PMState where
  handles : List (String × AgentHandle)
  metadata : List (String × SessionMetadata)
deriving DecidableEq

/-- `ProcessManager::spawn_agent`.  The adapter's `spawn` is an external
effect, passed in as `adapter_spawn`; it is invoked only when the
already-running check passes, exactly as in the source. -/
def ProcessManager.spawn_agent (st : PMState)
    (adapter_spawn : AgentConfig → Except AgentError AgentHandle)
    (adapter_type : AgentAdapterType) (config : AgentConfig) (now : String) :
    Except AgentError AgentSession × PMState :=
  let node_id := config.node_id
  if st.handles.any (fun p => p.2.node_id = node_id) then
    (Except.error (AgentError.alreadyRunning node_id), st)
  else
    match adapter_spawn config with
    | Except.error e => (Except.error e, st)
    | Except.ok handle =>
      let session : AgentSession :=
        ⟨handle.id, handle.node_id, adapter_type, some handle.process_id,
         AgentSessionStatus.running, now, none⟩
      (Except.ok session,
       ⟨insertAssoc st.handles session.id handle,
        insertAssoc st.metadata session.id ⟨adapter_type, now⟩⟩)

/-! ## Persisted session rows (model of the `agent_sessions` table and the
database helpers in `commands/agent.rs`) -/

/-- One row of `agent_sessions` (stable key: `node_id`). -/
structure SessionRow where
  id : String
  node_id : String
  workspace_id : String
  adapter_type : String
  process_id : Option Nat
  status : String
  started_at : String
  ended_at : Option String
  claude_session_id : Option String
deriving DecidableEq

/-- `get_session_from_db` / `get_agent_status` row conversion: unknown
adapter and status strings fall back to `ClaudeCode` / `Running`. -/
def rowToSession (r : SessionRow) : AgentSession :=
  ⟨r.id, r.node_id, AgentAdapterType.claudeCode, r.process_id,
   (AgentSessionStatus.from_str r.status).getD AgentSessionStatus.running,
   r.started_at, r.ended_at⟩

/-- `update_session_status`: `UPDATE agent_sessions SET status, ended_at
WHERE node_id = ?`.  A `success = false` call stores `"failed"` regardless of
the supplied status string. -/
def update_session_status (db : Option SessionRow) (node_id status : String)
    (success : Bool) (now : String) : Option SessionRow :=
  let final_status := if success then status else "failed"
  db.map (fun r =>
    if r.node_id = node_id then
      { r with status := final_status, ended_at := some now }
    else r)

/-- `upsert_agent_session`: insert-or-update on conflict of `node_id`.  Both
branches leave `claude_session_id` NULL; the conflict branch keeps the old
`workspace_id`, `adapter_type`, `process_id` and `ended_at` (they are not in
the `DO UPDATE SET` list). -/
def upsert_agent_session (db : String → Option SessionRow)
    (node_id workspace_id caspian_session_id adapter_type status now : String) :
    String → Option SessionRow :=
  fun n =>
    if n = node_id then
      match db node_id with
      | none =>
        some ⟨caspian_session_id, node_id, workspace_id, adapter_type, none,
              status, now, none, none⟩
      | some old =>
        some { old with
                id := caspian_session_id
                status := status
                started_at := now
                claude_session_id := none }
    else db n

/-- The DB read in `get_agent_status` for one node. -/
def readSession (db : Option SessionRow) (node_id : String) :
    Option AgentSession :=
  db.bind (fun r => if r.node_id = node_id then some (rowToSession r) else none)

/-- `get_agent_status`: read the row; if it reads as `Running` but the
process registry has no live handle for the node, correct the stored status
to failed and return the re-read row.  Returns the session handed to the
caller and the resulting DB state. -/
def get_agent_status (db : Option SessionRow) (node_id : String)
    (registryHasLive : Bool) (now : String) :
    Option AgentSession × Option SessionRow :=
  match readSession db node_id with
  | some s =>
    if s.status = AgentSessionStatus.running && !registryHasLive then
      let db2 := update_session_status db node_id "failed" false now
      (readSession db2 node_id, db2)
    else (some s, db)
  | none => (none, db)

/-- The running-agent pre-check at the top of the `spawn_agent` command:
returns whether the spawn may proceed and the (possibly corrected) DB state.
A `Running` row with a live registry handle refuses the spawn; a `Running`
row without one is corrected to failed before proceeding. -/
def spawn_agent_precheck (db : Option SessionRow) (node_id : String)
    (registryHasLive : Bool) (now : String) : Bool × Option SessionRow :=
  match readSession db node_id with
  | some s =>
    if s.status = AgentSessionStatus.running then
      if registryHasLive then (false, db)
      else (true, update_session_status db node_id "failed" false now)
    else (true, db)
  | none => (true, db)

/-- The `terminate_agent_for_node` command's DB write: it always calls
`update_session_status(node, "terminated", false)`. -/
def terminate_agent_for_node_db (db : Option SessionRow) (node_id : String)
    (now : String) : Option SessionRow :=
  update_session_status db node_id "terminated" false now

/-- Every `(status, success)` pair passed to `update_session_status` anywhere
in the sources: the `spawn_agent` pre-check, `terminate_agent_for_node`,
`get_agent_status`, and the four streamer sites (complete event, error
event, closure-pending, closure-normal). -/
def sessionStatusCallSites : List (String × Bool) :=
  [("failed", false), ("terminated", false), ("failed", false),
   ("completed", true), ("failed", false), ("pending", true),
   ("completed", true)]

/-- The status string actually stored by `update_session_status` for a
`(status, success)` pair. -/
def storedStatus (p : String × Bool) : String :=
  if p.2 then p.1 else "failed"

/-- Status strings written to `agent_sessions.status` by statements that do
not go through `update_session_status`: `upsert_agent_session` is always
called with `"running"`, and `cleanup_stale_sessions` writes `"idle"`. -/
def directStatusWrites : List String := ["running", "idle"]

/-! ## Chat message insertion with deduplication (streaming.rs)

Timestamps are modelled as integer milliseconds; the RFC 3339 strings the
source compares with SQL `>` are monotone in these instants. -/

/-- One row of the `messages` table (the columns the dedup check reads). -/
structure MsgRow where
  id : String
  workspace_id : String
  node_id : String
  sender_id : Option String
  content : String
  message_type : String
  created_at : Int
deriving DecidableEq

/-- `check_duplicate_message`: is there a row with the same (node, sender,
content, type) created after `now - window_seconds`? -/
def check_duplicate_message (msgs : List MsgRow) (node_id session_id content :
    String) (message_type : MessageType) (window_seconds : Int) (now : Int) :
    Bool :=
  let threshold := now - window_seconds * 1000
  msgs.any (fun m =>
    m.node_id = node_id && m.sender_id = some session_id &&
    m.content = content && m.message_type = message_type.as_str &&
    threshold < m.created_at)

/-- `insert_agent_message`: skip the insert when a duplicate exists within
the fixed 5-second window, else append the new row.  `new_id` stands for the
freshly minted UUID. -/
def insert_agent_message (msgs : List MsgRow)
    (workspace_id node_id session_id content : String)
    (message_type : MessageType) (new_id : String) (now : Int) : List MsgRow :=
  if check_duplicate_message msgs node_id session_id content message_type 5 now
  then msgs
  else msgs ++ [⟨new_id, workspace_id, node_id, some session_id, content,
                message_type.as_str, now⟩]

/-- Does a row match the deduplication tuple? -/
def matchesTuple (node_id session_id content : String)
    (message_type : MessageType) (m : MsgRow) : Bool :=
  m.node_id = node_id && m.sender_id = some session_id &&
  m.content = content && m.message_type = message_type.as_str

/-! ## Substring matching (model of `str::contains`) -/

/-- Does the haystack start with the needle? -/
def startsWithChars : List Char → List Char → Bool
  | _, [] => true
  | [], _ :: _ => false
  | h :: hs, n :: ns => h = n && startsWithChars hs ns

/-- Does the needle occur anywhere in the haystack? -/
def hasSubChars : List Char → List Char → Bool
  | [], needle => needle.isEmpty
  | h :: hs, needle => startsWithChars (h :: hs) needle || hasSubChars hs needle

/-- `str::contains` on strings. -/
def hasSub (s sub : String) : Bool := hasSubChars s.data sub.data

/-! ## Wait-for-session-id and resume (commands/agent.rs) -/

/-- The escalating poll delays of `wait_for_claude_session_id`. -/
def delays_ms : List Nat := [100, 200, 300, 400, 500, 600, 700, 800]

/-- The retry backoff schedule of `resume_agent_with_input`. -/
def retry_delays_ms : List Nat := [500, 1000, 2000]

/-- Result of reading the session row on one attempt: the non-empty external
session id, if any.  `poll i` is what `get_session_for_node` returns on the
i-th read (the DB may change between reads). -/
def attemptId (poll : Nat → Option (String × String)) (i : Nat) :
    Option String :=
  match poll i with
  | some (claude_id, _) => if claude_id = "" then none else some claude_id
  | none => none

/-- The polling loop: try attempts `first, first+1, ...` while fuel lasts,
returning the first non-empty id found. -/
def waitFindGo (poll : Nat → Option (String × String)) :
    Nat → Nat → Option String
  | _, 0 => none
  | first, fuel + 1 =>
    match attemptId poll first with
    | some cid => some cid
    | none => waitFindGo poll (first + 1) fuel

/-- `wait_for_claude_session_id`: 8 polling attempts with escalating delays,
then a final re-read to build a descriptive error.  Sleeps do not affect the
result and are not modelled here. -/
def wait_for_claude_session_id (node_id : String)
    (poll : Nat → Option (String × String)) : Except String String :=
  match waitFindGo poll 0 delays_ms.length with
  | some cid => Except.ok cid
  | none =>
    match poll delays_ms.length with
    | some (claude_id, status) =>
      if claude_id = "" then
        Except.error ("Claude session ID is still NULL/empty for node '" ++
          node_id ++ ("' after 8 attempts (status: " ++ status ++
          "). The Init event may not have been received or parsed correctly."))
      else Except.ok claude_id
    | none =>
      Except.error ("No agent session found for node '" ++ node_id ++
        "' after 8 attempts. The agent may not have been spawned.")

/-- The resume config construction (`AgentConfig::new(...)`
`.with_resume_session(...)` plus the optional model), exactly as built both
initially and on every retry. -/
def buildResumeConfig (node_id working_dir user_input claude_session_id :
    String) (model : Option String) : AgentConfig :=
  let c := (AgentConfig.new node_id working_dir
    user_input).with_resume_session claude_session_id
  match model with
  | some m => c.with_model m
  | none => c

/-- `is_transient` classification of a spawn error message (the exact
substring list of the source, in source order). -/
def is_transient (msg : String) : Bool :=
  hasSub msg "404" || hasSub msg "not_found" ||
  hasSub msg "temporarily unavailable" || hasSub msg "service unavailable" ||
  hasSub msg "503" || hasSub msg "502"

/-- Trace of the retry loop: its result, the config passed to each
`spawn_agent` invocation, and the backoff delays slept. -/
structure RetryTrace where
  result : Except String AgentSession
  configsUsed : List AgentConfig
  sleeps : List Nat

/-- The retry loop of `resume_agent_with_input`: up to `fuel` further
attempts starting at index `attempt`; a retry sleeps
`retry_delays_ms[attempt-1]` and reconstructs the config fresh.  The
post-loop arm (fuel exhausted) mirrors the source's unreachable
"failed after max retries" error. -/
def resumeSpawnGo (spawn : AgentConfig → Nat → Except String AgentSession)
    (cfg : AgentConfig) (max_retries : Nat) :
    Nat → Nat → List AgentConfig → List Nat → String → RetryTrace
  | _, 0, cfgs, sleeps, last_error =>
    ⟨Except.error ("Failed to resume agent after " ++ toString max_retries ++
      " retries: " ++ last_error), cfgs, sleeps⟩
  | attempt, fuel + 1, cfgs, sleeps, _ =>
    let sleeps2 :=
      if attempt = 0 then sleeps
      else sleeps ++ [retry_delays_ms.getD (attempt - 1) 0]
    let cfgs2 := cfgs ++ [cfg]
    match spawn cfg attempt with
    | Except.ok session => ⟨Except.ok session, cfgs2, sleeps2⟩
    | Except.error e =>
      if is_transient e && attempt < max_retries - 1 then
        resumeSpawnGo spawn cfg max_retries (attempt + 1) fuel cfgs2 sleeps2 e
      else ⟨Except.error e, cfgs2, sleeps2⟩

/-- The whole retry loop of `resume_agent_with_input`: `max_retries = 3`
total attempts starting empty-handed. -/
def resumeRetryTrace (spawn : AgentConfig → Nat → Except String AgentSession)
    (cfg : AgentConfig) : RetryTrace :=
  resumeSpawnGo spawn cfg 3 0 3 [] [] ""

/-- `resume_agent_with_input`: terminate any live handle (an external effect
with no bearing on the trace), wait for the external session id, then run
the bounded retry loop with a freshly built config per attempt.  `spawn`
abstracts `get_process_manager().spawn_agent(ClaudeCode, config)` at each
attempt index. -/
def resume_agent_with_input (node_id working_dir user_input : String)
    (model : Option String) (poll : Nat → Option (String × String))
    (spawn : AgentConfig → Nat → Except String AgentSession) : RetryTrace :=
  match wait_for_claude_session_id node_id poll with
  | Except.error e =>
    ⟨Except.error ("Cannot resume agent: " ++ e), [], []⟩
  | Except.ok claude_session_id =>
    if claude_session_id = "" then
      ⟨Except.error ("Invalid Claude session ID for node " ++ node_id ++
        ". The agent initialization may have failed."), [], []⟩
    else
      resumeRetryTrace spawn (buildResumeConfig node_id working_dir user_input
        claude_session_id model)

/-! ## Theorems -/

/-- Claim C8: creating or updating the persisted session row for a node
(upsert on conflict of node id) leaves the external (Claude) session id
unset/NULL in both the fresh-insert and the conflict-update branch, so on
every new spawn the external session identifier starts cleared until a
subsequent Init event repopulates it. -/
theorem upsert_clears_external_session_id
    (db : String → Option SessionRow)
    (node_id workspace_id caspian_session_id adapter_type status now : String) :
    ∃ r : SessionRow,
      upsert_agent_session db node_id workspace_id caspian_session_id
        adapter_type status now node_id = some r ∧
      r.claude_session_id = none := by
  unfold upsert_agent_session
  simp only [if_pos rfl]
  cases db node_id with
  | none => exact ⟨_, rfl, rfl⟩
  | some old => exact ⟨_, rfl, rfl⟩

/-- Claim C10: `update_session_status` replaces the supplied status string by
`"failed"` whenever `success` is false; `terminate_agent_for_node` passes
`("terminated", false)`, so its DB write stores `"failed"`; and no call site
in the sources stores the string `"terminated"`, so the `Terminated` status
value is never actually persisted. -/
theorem terminated_status_never_stored :
    (∀ (r : SessionRow) (now : String),
      terminate_agent_for_node_db (some r) r.node_id now =
        some { r with status := "failed", ended_at := some now }) ∧
    storedStatus ("terminated", false) = "failed" ∧
    (sessionStatusCallSites.all (fun p => storedStatus p != "terminated")) = true ∧
    (directStatusWrites.all (fun s => s != "terminated")) = true := by
  refine ⟨?_, rfl, by decide, by decide⟩
  intro r now
  unfold terminate_agent_for_node_db update_session_status
  simp

/-- Inserting under a key makes it the binding found for that key. -/
theorem findAssoc_insertAssoc {α : Type} (m : List (String × α)) (k : String)
    (v : α) : findAssoc (insertAssoc m k v) k = some v := by
  unfold findAssoc insertAssoc
  simp [List.find?]

/-- Claim C1: `spawn_agent` admits at most one live handle per node id.  If a
handle with the config's node id is present in the handle map, the call
returns `AlreadyRunning` and leaves the whole registry state unchanged (the
adapter is not even invoked, so the existing session is never replaced); if
no such handle exists and the adapter spawn succeeds, the returned session
is `Running` and the new handle is inserted under its session id. -/
theorem spawn_agent_one_handle_per_node
    (st : PMState) (adapter_spawn : AgentConfig → Except AgentError AgentHandle)
    (adapter_type : AgentAdapterType) (config : AgentConfig) (now : String) :
    ((∃ p ∈ st.handles, p.2.node_id = config.node_id) →
      ProcessManager.spawn_agent st adapter_spawn adapter_type config now =
        (Except.error (AgentError.alreadyRunning config.node_id), st)) ∧
    (∀ h : AgentHandle,
      (¬ ∃ p ∈ st.handles, p.2.node_id = config.node_id) →
      adapter_spawn config = Except.ok h →
      (ProcessManager.spawn_agent st adapter_spawn adapter_type config now).1 =
        Except.ok ⟨h.id, h.node_id, adapter_type, some h.process_id,
          AgentSessionStatus.running, now, none⟩ ∧
      findAssoc (ProcessManager.spawn_agent st adapter_spawn adapter_type
        config now).2.handles h.id = some h) := by
  constructor
  · intro hex
    unfold ProcessManager.spawn_agent
    have hany : st.handles.any
        (fun p => p.2.node_id = config.node_id) = true := by
      rw [List.any_eq_true]
      obtain ⟨p, hp, hq⟩ := hex
      exact ⟨p, hp, by simp [hq]⟩
    simp [hany]
  · intro h hnex hspawn
    unfold ProcessManager.spawn_agent
    have hany : st.handles.any
        (fun p => p.2.node_id = config.node_id) = false := by
      rw [Bool.eq_false_iff]
      intro hc
      rw [List.any_eq_true] at hc
      obtain ⟨p, hp, hq⟩ := hc
      exact hnex ⟨p, hp, by simpa using hq⟩
    simp [hany, hspawn, findAssoc_insertAssoc]

/-- Witness for the C1 theorem at concrete inputs: a registry already holding
a handle for node `n1` refuses a second spawn for `n1` unchanged, and an
empty registry inserts the freshly spawned handle. -/
theorem spawn_agent_one_handle_per_node_witness :
    (ProcessManager.spawn_agent ⟨[("s1", ⟨"s1", "n1", 42, false⟩)], []⟩
        (fun c => Except.ok ⟨"s2", c.node_id, 43, false⟩)
        AgentAdapterType.claudeCode (AgentConfig.new "n1" "/w" "fix") "t1" =
      (Except.error (AgentError.alreadyRunning "n1"),
       ⟨[("s1", ⟨"s1", "n1", 42, false⟩)], []⟩)) ∧
    ((ProcessManager.spawn_agent ⟨[], []⟩
        (fun c => Except.ok ⟨"s2", c.node_id, 43, false⟩)
        AgentAdapterType.claudeCode (AgentConfig.new "n1" "/w" "fix") "t1").1 =
      Except.ok ⟨"s2", "n1", AgentAdapterType.claudeCode, some 43,
        AgentSessionStatus.running, "t1", none⟩ ∧
     findAssoc (ProcessManager.spawn_agent ⟨[], []⟩
        (fun c => Except.ok ⟨"s2", c.node_id, 43, false⟩)
        AgentAdapterType.claudeCode (AgentConfig.new "n1" "/w" "fix")
        "t1").2.handles "s2" = some ⟨"s2", "n1", 43, false⟩) :=
  ⟨(spawn_agent_one_handle_per_node _ _ _ _ _).1
      ⟨("s1", ⟨"s1", "n1", 42, false⟩), by simp, rfl⟩,
   (spawn_agent_one_handle_per_node _ _ _ _ _).2 ⟨"s2", "n1", 43, false⟩
      (by simp) rfl⟩

/-- Claim C5: whenever the session row reads as `Running` (by
`get_agent_status` or by the `spawn_agent` pre-check) and the registry holds
no live handle for the node, the stored status is corrected to failed before
being returned to or acted on by the caller, and the returned session
carries status `Failed`; when a live handle exists, the `Running` status is
returned unchanged and storage is untouched. -/
theorem running_status_reconciled_against_registry
    (r : SessionRow) (now : String)
    (hrun : (AgentSessionStatus.from_str r.status).getD
      AgentSessionStatus.running = AgentSessionStatus.running) :
    ((get_agent_status (some r) r.node_id false now).1 =
        some (rowToSession { r with status := "failed", ended_at := some now }) ∧
     (rowToSession { r with status := "failed", ended_at := some now }).status =
        AgentSessionStatus.failed ∧
     (get_agent_status (some r) r.node_id false now).2 =
        some { r with status := "failed", ended_at := some now } ∧
     spawn_agent_precheck (some r) r.node_id false now =
        (true, some { r with status := "failed", ended_at := some now })) ∧
    ((get_agent_status (some r) r.node_id true now).1 =
        some (rowToSession r) ∧
     (rowToSession r).status = AgentSessionStatus.running ∧
     (get_agent_status (some r) r.node_id true now).2 = some r ∧
     spawn_agent_precheck (some r) r.node_id true now = (false, some r)) := by
  have hread : readSession (some r) r.node_id = some (rowToSession r) := by
    simp [readSession]
  have hstat : (rowToSession r).status = AgentSessionStatus.running := by
    simp [rowToSession, hrun]
  have hupd : update_session_status (some r) r.node_id "failed" false now =
      some { r with status := "failed", ended_at := some now } := by
    simp [update_session_status]
  have hread2 : readSession
      (some { r with status := "failed", ended_at := some now }) r.node_id =
      some (rowToSession { r with status := "failed", ended_at := some now }) := by
    simp [readSession]
  constructor
  · refine ⟨?_, by simp [rowToSession, AgentSessionStatus.from_str], ?_, ?_⟩
    · unfold get_agent_status
      rw [hread]
      simp [hstat, hupd, hread2]
    · unfold get_agent_status
      rw [hread]
      simp [hstat, hupd]
    · unfold spawn_agent_precheck
      rw [hread]
      simp [hstat, hupd]
  · refine ⟨?_, hstat, ?_, ?_⟩
    · unfold get_agent_status
      rw [hread]
      simp [hstat]
    · unfold get_agent_status
      rw [hread]
      simp [hstat]
    · unfold spawn_agent_precheck
      rw [hread]
      simp [hstat]

/-- Witness for the C5 theorem at a concrete running row. -/
theorem running_status_reconciled_against_registry_witness :
    (get_agent_status
        (some ⟨"s1", "n1", "w1", "claude-code", some 7, "running", "t0", none,
          none⟩) "n1" false "t9").2 =
      some ⟨"s1", "n1", "w1", "claude-code", some 7, "failed", "t0", some "t9",
        none⟩ ∧
    (get_agent_status
        (some ⟨"s1", "n1", "w1", "claude-code", some 7, "running", "t0", none,
          none⟩) "n1" true "t9").1 =
      some (rowToSession ⟨"s1", "n1", "w1", "claude-code", some 7, "running",
        "t0", none, none⟩) :=
  ⟨((running_status_reconciled_against_registry
      ⟨"s1", "n1", "w1", "claude-code", some 7, "running", "t0", none, none⟩
      "t9" (by decide)).1).2.2.1,
   ((running_status_reconciled_against_registry
      ⟨"s1", "n1", "w1", "claude-code", some 7, "running", "t0", none, none⟩
      "t9" (by decide)).2).1⟩

/-- Claim C6: inserting an agent message whose (node id, session id, content,
message type) tuple is identical to one already inserted within the trailing
5-second window results in exactly one stored row — the second insert is
skipped — while an identical insert after the window has elapsed (6 or more
seconds later; in fact any gap of at least 5 seconds) is accepted and stored
as a second row. -/
theorem duplicate_message_window
    (msgs : List MsgRow) (workspace_id node_id session_id content : String)
    (mt : MessageType) (id1 id2 : String) (t1 t2 : Int)
    (h0 : msgs.countP (matchesTuple node_id session_id content mt) = 0) :
    ((insert_agent_message msgs workspace_id node_id session_id content mt id1
        t1).countP (matchesTuple node_id session_id content mt) = 1) ∧
    (t2 - t1 < 5000 →
      insert_agent_message
          (insert_agent_message msgs workspace_id node_id session_id content
            mt id1 t1) workspace_id node_id session_id content mt id2 t2 =
        insert_agent_message msgs workspace_id node_id session_id content mt
          id1 t1) ∧
    (5000 ≤ t2 - t1 →
      (insert_agent_message
          (insert_agent_message msgs workspace_id node_id session_id content
            mt id1 t1) workspace_id node_id session_id content mt id2
          t2).countP (matchesTuple node_id session_id content mt) = 2) := by
  have hall : ∀ m ∈ msgs,
      matchesTuple node_id session_id content mt m = false := by
    intro m hm
    have hnot := List.countP_eq_zero.mp h0 m hm
    simpa using hnot
  have hmatch1 : matchesTuple node_id session_id content mt
      ⟨id1, workspace_id, node_id, some session_id, content, mt.as_str, t1⟩ =
      true := by
    simp [matchesTuple]
  have hmatch2 : matchesTuple node_id session_id content mt
      ⟨id2, workspace_id, node_id, some session_id, content, mt.as_str, t2⟩ =
      true := by
    simp [matchesTuple]
  have hck1 : check_duplicate_message msgs node_id session_id content mt 5 t1 =
      false := by
    rw [Bool.eq_false_iff]
    intro hc
    unfold check_duplicate_message at hc
    rw [List.any_eq_true] at hc
    obtain ⟨m, hm, hp⟩ := hc
    simp only [Bool.and_eq_true, decide_eq_true_eq] at hp
    obtain ⟨⟨⟨⟨h1, h2⟩, h3⟩, h4⟩, _⟩ := hp
    have hmt : matchesTuple node_id session_id content mt m = true := by
      simp [matchesTuple, h1, h2, h3, h4]
    rw [hall m hm] at hmt
    exact Bool.false_ne_true hmt
  have hins1 : insert_agent_message msgs workspace_id node_id session_id
      content mt id1 t1 = msgs ++
      [⟨id1, workspace_id, node_id, some session_id, content, mt.as_str, t1⟩] := by
    unfold insert_agent_message
    rw [hck1]
    simp
  refine ⟨?_, ?_, ?_⟩
  · rw [hins1, List.countP_append]
    simp [h0, List.countP_cons, hmatch1]
  · intro hw
    have hck2 : check_duplicate_message
        (msgs ++ [⟨id1, workspace_id, node_id, some session_id, content,
          mt.as_str, t1⟩]) node_id session_id content mt 5 t2 = true := by
      unfold check_duplicate_message
      rw [List.any_eq_true]
      refine ⟨⟨id1, workspace_id, node_id, some session_id, content,
        mt.as_str, t1⟩, by simp, ?_⟩
      simp only [Bool.and_eq_true, decide_eq_true_eq]
      exact ⟨by simp, by omega⟩
    rw [hins1]
    unfold insert_agent_message
    rw [hck2]
    simp
  · intro hw
    have hck3 : check_duplicate_message
        (msgs ++ [⟨id1, workspace_id, node_id, some session_id, content,
          mt.as_str, t1⟩]) node_id session_id content mt 5 t2 = false := by
      rw [Bool.eq_false_iff]
      intro hc
      unfold check_duplicate_message at hc
      rw [List.any_eq_true] at hc
      obtain ⟨m, hm, hp⟩ := hc
      simp only [Bool.and_eq_true, decide_eq_true_eq] at hp
      obtain ⟨⟨⟨⟨h1, h2⟩, h3⟩, h4⟩, h5⟩ := hp
      rcases List.mem_append.mp hm with hmem | hmem
      · have hmt : matchesTuple node_id session_id content mt m = true := by
          simp [matchesTuple, h1, h2, h3, h4]
        rw [hall m hmem] at hmt
        exact Bool.false_ne_true hmt
      · have hm1 := List.mem_singleton.mp hmem
        subst hm1
        have ht : t2 - 5 * 1000 < t1 := h5
        omega
    rw [hins1]
    unfold insert_agent_message
    rw [hck3]
    simp [List.countP_append, h0, List.countP_cons, hmatch1, hmatch2]

/-- Witness for the C6 theorem: from an empty table, a first insert at t=0,
a duplicate at t=4000 (skipped) and a duplicate at t=6000 (accepted). -/
theorem duplicate_message_window_witness :
    ((insert_agent_message [] "w" "n" "s" "boom" MessageType.error "i1"
        0).countP (matchesTuple "n" "s" "boom" MessageType.error) = 1) ∧
    (insert_agent_message
        (insert_agent_message [] "w" "n" "s" "boom" MessageType.error "i1" 0)
        "w" "n" "s" "boom" MessageType.error "i2" 4000 =
      insert_agent_message [] "w" "n" "s" "boom" MessageType.error "i1" 0) ∧
    ((insert_agent_message
        (insert_agent_message [] "w" "n" "s" "boom" MessageType.error "i1" 0)
        "w" "n" "s" "boom" MessageType.error "i2" 6000).countP
      (matchesTuple "n" "s" "boom" MessageType.error) = 2) :=
  ⟨(duplicate_message_window [] "w" "n" "s" "boom" MessageType.error "i1" "i2"
      0 4000 rfl).1,
   (duplicate_message_window [] "w" "n" "s" "boom" MessageType.error "i1" "i2"
      0 4000 rfl).2.1 (by decide),
   (duplicate_message_window [] "w" "n" "s" "boom" MessageType.error "i1" "i2"
      0 6000 rfl).2.2 (by decide)⟩

/-- The empty needle occurs in every haystack. -/
theorem hasSubChars_nil_needle (xs : List Char) : hasSubChars xs [] = true := by
  cases xs <;> simp [hasSubChars, startsWithChars]

/-- A list starts with itself, up to a trailing suffix. -/
theorem startsWithChars_app (n suf : List Char) :
    startsWithChars (n ++ suf) n = true := by
  induction n with
  | nil => simp [startsWithChars]
  | cons c cs ih => simp [startsWithChars, ih]

/-- A needle occurs in any haystack that embeds it between two contexts. -/
theorem hasSubChars_split (pre n suf : List Char) :
    hasSubChars (pre ++ (n ++ suf)) n = true := by
  induction pre with
  | nil =>
    cases n with
    | nil => simpa using hasSubChars_nil_needle suf
    | cons c cs => simp [hasSubChars, startsWithChars, startsWithChars_app]
  | cons p ps ih => simp [hasSubChars, ih]

/-- An occurrence survives prepending more haystack. -/
theorem hasSubChars_app_left (xs ys n : List Char)
    (h : hasSubChars ys n = true) : hasSubChars (xs ++ ys) n = true := by
  induction xs with
  | nil => simpa using h
  | cons x xs ih => simp [hasSubChars, ih]

/-- `hasSub` finds the middle component of a concatenation. -/
theorem hasSub_append (a b c : String) : hasSub (a ++ b ++ c) b = true := by
  unfold hasSub
  rw [String.data_append, String.data_append, List.append_assoc]
  exact hasSubChars_split a.data b.data c.data

/-- `hasSub` survives prepending a further string. -/
theorem hasSub_append_left (a rest b : String) (h : hasSub rest b = true) :
    hasSub (a ++ rest) b = true := by
  unfold hasSub at h ⊢
  rw [String.data_append]
  exact hasSubChars_app_left a.data rest.data b.data h

/-- If no attempt in the window yields a non-empty id, the polling loop
finds nothing. -/
theorem waitFindGo_none (poll : Nat → Option (String × String)) :
    ∀ (fuel first : Nat),
      (∀ i, first ≤ i → i < first + fuel → attemptId poll i = none) →
      waitFindGo poll first fuel = none
  | 0, _, _ => rfl
  | fuel + 1, first, h => by
    unfold waitFindGo
    rw [h first le_rfl (by omega)]
    exact waitFindGo_none poll fuel (first + 1)
      (fun i h1 h2 => h i (by omega) (by omega))

/-- The polling loop returns the id of the first successful attempt. -/
theorem waitFindGo_found (poll : Nat → Option (String × String)) :
    ∀ (fuel first i : Nat) (cid : String), first ≤ i → i < first + fuel →
      (∀ j, first ≤ j → j < i → attemptId poll j = none) →
      attemptId poll i = some cid →
      waitFindGo poll first fuel = some cid
  | 0, first, i, cid, h1, h2, _, _ => absurd h2 (by omega)
  | fuel + 1, first, i, cid, h1, h2, hnone, hsome => by
    unfold waitFindGo
    rcases Nat.eq_or_lt_of_le h1 with heq | hlt
    · subst heq
      rw [hsome]
    · rw [hnone first le_rfl hlt]
      exact waitFindGo_found poll fuel (first + 1) i cid (by omega) (by omega)
        (fun j hj1 hj2 => hnone j (by omega) hj2) hsome

/-- A successful `attemptId` never carries the empty id. -/
theorem attemptId_ne_empty (poll : Nat → Option (String × String)) (i : Nat)
    (cid : String) (h : attemptId poll i = some cid) : cid ≠ "" := by
  rcases hp : poll i with _ | ⟨c, s⟩
  · rw [attemptId, hp] at h
    exact absurd h (by simp)
  · simp only [attemptId, hp] at h
    by_cases hc : c = ""
    · rw [if_pos hc] at h
      exact absurd h (by simp)
    · rw [if_neg hc] at h
      have hce : c = cid := by
        injection h
      intro he
      apply hc
      rw [hce, he]

/-- Every config the retry loop ever passes to `spawn_agent` is either one of
the previously accumulated configs or the freshly built one. -/
theorem resumeSpawnGo_configs_mem
    (spawn : AgentConfig → Nat → Except String AgentSession)
    (cfg : AgentConfig) (mr : Nat) :
    ∀ (fuel attempt : Nat) (cfgs : List AgentConfig) (sleeps : List Nat)
      (last : String) (c : AgentConfig),
      c ∈ (resumeSpawnGo spawn cfg mr attempt fuel cfgs sleeps
        last).configsUsed →
      c ∈ cfgs ∨ c = cfg
  | 0, _, cfgs, _, _, c, h => Or.inl h
  | fuel + 1, attempt, cfgs, sleeps, last, c, h => by
    simp only [resumeSpawnGo] at h
    split at h
    · rcases List.mem_append.mp h with h1 | h1
      · exact Or.inl h1
      · exact Or.inr (List.mem_singleton.mp h1)
    · split at h
      · rcases resumeSpawnGo_configs_mem spawn cfg mr fuel (attempt + 1) _ _ _
          c h with hin | hcfg
        · rcases List.mem_append.mp hin with h1 | h1
          · exact Or.inl h1
          · exact Or.inr (List.mem_singleton.mp h1)
        · exact Or.inr hcfg
      · rcases List.mem_append.mp h with h1 | h1
        · exact Or.inl h1
        · exact Or.inr (List.mem_singleton.mp h1)

/-- The fields of the reconstructed resume config. -/
theorem buildResumeConfig_fields (n w u sid : String) (m : Option String) :
    (buildResumeConfig n w u sid m).resume_session_id = some sid ∧
    (buildResumeConfig n w u sid m).goal = u := by
  cases m <;>
    simp [buildResumeConfig, AgentConfig.new, AgentConfig.with_resume_session,
      AgentConfig.with_model]

/-- When every read yields no non-empty external id, the bounded wait fails
with an error naming the node. -/
theorem wait_exhausted (node_id : String)
    (poll : Nat → Option (String × String))
    (hnone : ∀ i, i ≤ 8 → attemptId poll i = none) :
    ∃ msg, wait_for_claude_session_id node_id poll = Except.error msg ∧
      hasSub msg node_id = true := by
  have hfind : waitFindGo poll 0 delays_ms.length = none := by
    apply waitFindGo_none
    intro i h1 h2
    apply hnone
    simp only [delays_ms, List.length_cons, List.length_nil] at h2
    omega
  rcases hp : poll delays_ms.length with _ | ⟨cid, status⟩
  · refine ⟨"No agent session found for node '" ++ node_id ++
      "' after 8 attempts. The agent may not have been spawned.", ?_, ?_⟩
    · simp only [wait_for_claude_session_id, hfind, hp]
    · exact hasSub_append _ node_id _
  · have hcid : cid = "" := by
      have h8 := hnone 8 le_rfl
      have hp8 : poll 8 = some (cid, status) := hp
      simp only [attemptId, hp8] at h8
      by_cases hc : cid = ""
      · exact hc
      · rw [if_neg hc] at h8
        exact absurd h8 (by simp)
    subst hcid
    refine ⟨"Claude session ID is still NULL/empty for node '" ++ node_id ++
      ("' after 8 attempts (status: " ++ status ++
       "). The Init event may not have been received or parsed correctly."),
      ?_, ?_⟩
    · simp only [wait_for_claude_session_id, hfind, hp]
      simp
    · exact hasSub_append _ node_id _

/-- Claim C2: when the persisted external session id stays empty (or the
session record stays absent) across the whole bounded poll — the 8 escalating
attempts and the final re-read — `resume_agent_with_input` returns a
descriptive error naming the node and performs no adapter spawn at all; when
some attempt within the 8 finds a non-empty external session id, the wait
returns exactly that id, and every configuration the resume path then hands
to spawn carries it as the resume-session identifier with the user's input
as the goal. -/
theorem resume_refused_without_external_id
    (node_id working_dir user_input : String) (model : Option String)
    (poll : Nat → Option (String × String))
    (spawn : AgentConfig → Nat → Except String AgentSession) :
    ((∀ i, i ≤ 8 → attemptId poll i = none) →
      (resume_agent_with_input node_id working_dir user_input model poll
        spawn).configsUsed = [] ∧
      ∃ msg, (resume_agent_with_input node_id working_dir user_input model
        poll spawn).result = Except.error msg ∧ hasSub msg node_id = true) ∧
    (∀ i cid, i < 8 → (∀ j, j < i → attemptId poll j = none) →
      attemptId poll i = some cid →
      wait_for_claude_session_id node_id poll = Except.ok cid ∧
      ∀ c ∈ (resume_agent_with_input node_id working_dir user_input model
        poll spawn).configsUsed,
        c.resume_session_id = some cid ∧ c.goal = user_input) := by
  constructor
  · intro hnone
    obtain ⟨msg, hwe, hsubm⟩ := wait_exhausted node_id poll hnone
    refine ⟨?_, "Cannot resume agent: " ++ msg, ?_, ?_⟩
    · simp only [resume_agent_with_input, hwe]
    · simp only [resume_agent_with_input, hwe]
    · exact hasSub_append_left "Cannot resume agent: " msg node_id hsubm
  · intro i cid hi hprev hsome
    have hwait : wait_for_claude_session_id node_id poll = Except.ok cid := by
      unfold wait_for_claude_session_id
      rw [waitFindGo_found poll delays_ms.length 0 i cid (Nat.zero_le i)
        (by simp only [delays_ms, List.length_cons, List.length_nil]; omega)
        (fun j _ hj => hprev j hj) hsome]
    refine ⟨hwait, ?_⟩
    intro c hc
    have hne : cid ≠ "" := attemptId_ne_empty poll i cid hsome
    simp only [resume_agent_with_input, hwait, if_neg hne] at hc
    rcases resumeSpawnGo_configs_mem spawn
      (buildResumeConfig node_id working_dir user_input cid model) 3 3 0 [] []
      "" c hc with h1 | h1
    · exact absurd h1 (List.not_mem_nil c)
    · rw [h1]
      exact buildResumeConfig_fields node_id working_dir user_input cid model

/-- Witness for the C2 theorem: with a session record that never carries an
external id, resume performs no spawn; with an id appearing on the third
poll attempt, the wait returns it. -/
theorem resume_refused_without_external_id_witness :
    (resume_agent_with_input "n1" "/w" "go" none (fun _ => none)
      (fun _ _ => Except.error "never")).configsUsed = [] ∧
    wait_for_claude_session_id "n1"
      (fun i => if i = 2 then some ("claude-xyz", "running") else none) =
      Except.ok "claude-xyz" :=
  ⟨((resume_refused_without_external_id "n1" "/w" "go" none (fun _ => none)
      (fun _ _ => Except.error "never")).1 (fun _ _ => rfl)).1,
   ((resume_refused_without_external_id "n1" "/w" "go" none
      (fun i => if i = 2 then some ("claude-xyz", "running") else none)
      (fun _ _ => Except.error "never")).2 2 "claude-xyz" (by decide)
      (by decide) rfl).1⟩

/-- The transient-error test exactly as the claim words it: the error
message matches one of the substrings not-found/404/unavailable/502/503. -/
def transientPerClaim (msg : String) : Bool :=
  hasSub msg "not-found" || hasSub msg "404" || hasSub msg "unavailable" ||
  hasSub msg "502" || hasSub msg "503"

/-- Counterexample to claim C3 as stated: the message `"unavailable"`
matches the claim's substring list, but the code's `is_transient` rejects it
(the source requires `"temporarily unavailable"` or `"service unavailable"`,
and `"not_found"` with an underscore rather than `"not-found"`), so resume
makes exactly one attempt and returns the error instead of retrying. -/
theorem transient_classification_counterexample :
    transientPerClaim "unavailable" = true ∧
    is_transient "unavailable" = false ∧
    (resumeRetryTrace (fun _ _ => Except.error "unavailable")
      (buildResumeConfig "n1" "/w" "go" "sid1" none)).configsUsed.length = 1 ∧
    (resumeRetryTrace (fun _ _ => Except.error "unavailable")
      (buildResumeConfig "n1" "/w" "go" "sid1" none)).result =
      Except.error "unavailable" ∧
    (resumeRetryTrace (fun _ _ => Except.error "unavailable")
      (buildResumeConfig "n1" "/w" "go" "sid1" none)).sleeps = [] :=
  ⟨rfl, rfl, rfl, rfl, rfl⟩

/-- Claim C3 (amended): during resume, a spawn failure is classified as
transient exactly when its message contains one of the substrings `"404"`,
`"not_found"`, `"temporarily unavailable"`, `"service unavailable"`,
`"503"`, `"502"`; the loop makes at most 3 attempts in total, reusing the
identical freshly built configuration for every attempt; an error containing
`"503"` on the first attempt triggers a retry whose first backoff sleep is
exactly 500 ms; a non-transient first error is returned verbatim with no
retry and no sleep; and transient errors on all three attempts exhaust the
retries, sleeping 500 ms then 1000 ms and returning the last underlying
error verbatim. -/
theorem resume_retry_on_transient_errors
    (spawn : AgentConfig → Nat → Except String AgentSession)
    (cfg : AgentConfig) :
    (∀ msg, is_transient msg = true ↔
      (hasSub msg "404" = true ∨ hasSub msg "not_found" = true ∨
       hasSub msg "temporarily unavailable" = true ∨
       hasSub msg "service unavailable" = true ∨
       hasSub msg "503" = true ∨ hasSub msg "502" = true)) ∧
    (resumeRetryTrace spawn cfg).configsUsed.length ≤ 3 ∧
    (∀ c ∈ (resumeRetryTrace spawn cfg).configsUsed, c = cfg) ∧
    (∀ e, spawn cfg 0 = Except.error e → hasSub e "503" = true →
      2 ≤ (resumeRetryTrace spawn cfg).configsUsed.length ∧
      (resumeRetryTrace spawn cfg).sleeps.head? = some 500) ∧
    (∀ e, spawn cfg 0 = Except.error e → is_transient e = false →
      (resumeRetryTrace spawn cfg).result = Except.error e ∧
      (resumeRetryTrace spawn cfg).configsUsed = [cfg] ∧
      (resumeRetryTrace spawn cfg).sleeps = []) ∧
    (∀ e0 e1 e2, spawn cfg 0 = Except.error e0 → is_transient e0 = true →
      spawn cfg 1 = Except.error e1 → is_transient e1 = true →
      spawn cfg 2 = Except.error e2 →
      (resumeRetryTrace spawn cfg).result = Except.error e2 ∧
      (resumeRetryTrace spawn cfg).sleeps = [500, 1000] ∧
      (resumeRetryTrace spawn cfg).configsUsed = [cfg, cfg, cfg]) := by
  refine ⟨?_, ?_, ?_, ?_, ?_, ?_⟩
  · intro msg
    simp [is_transient]
    tauto
  · unfold resumeRetryTrace
    simp only [resumeSpawnGo]
    repeat' split
    all_goals simp
  · intro c hc
    rcases resumeSpawnGo_configs_mem spawn cfg 3 3 0 [] [] "" c hc with h1 | h1
    · exact absurd h1 (List.not_mem_nil c)
    · exact h1
  · intro e hs0 h503
    have htr : is_transient e = true := by
      simp [is_transient, h503]
    unfold resumeRetryTrace
    simp only [resumeSpawnGo]
    simp only [hs0, htr]
    simp only [retry_delays_ms]
    repeat' split
    all_goals simp_all
  · intro e hs0 hnt
    unfold resumeRetryTrace
    simp only [resumeSpawnGo]
    simp only [hs0, hnt]
    simp
  · intro e0 e1 e2 hs0 ht0 hs1 ht1 hs2
    unfold resumeRetryTrace
    simp only [resumeSpawnGo]
    simp only [hs0, ht0, hs1, ht1, hs2]
    simp [retry_delays_ms]

/-- Witness for the C3 amended theorem at a concrete spawn function: a 503
on the first attempt, success on the second. -/
theorem resume_retry_on_transient_errors_witness :
    2 ≤ (resumeRetryTrace
      (fun _ n => if n = 0 then Except.error "upstream 503" else
        Except.ok ⟨"s2", "n1", AgentAdapterType.claudeCode, some 9,
          AgentSessionStatus.running, "t1", none⟩)
      (buildResumeConfig "n1" "/w" "go" "sid1" none)).configsUsed.length ∧
    (resumeRetryTrace
      (fun _ n => if n = 0 then Except.error "upstream 503" else
        Except.ok ⟨"s2", "n1", AgentAdapterType.claudeCode, some 9,
          AgentSessionStatus.running, "t1", none⟩)
      (buildResumeConfig "n1" "/w" "go" "sid1" none)).sleeps.head? =
      some 500 :=
  ⟨((resume_retry_on_transient_errors
      (fun _ n => if n = 0 then Except.error "upstream 503" else
        Except.ok ⟨"s2", "n1", AgentAdapterType.claudeCode, some 9,
          AgentSessionStatus.running, "t1", none⟩)
      (buildResumeConfig "n1" "/w" "go" "sid1" none)).2.2.2.1 "upstream 503"
      rfl rfl).1,
   ((resume_retry_on_transient_errors
      (fun _ n => if n = 0 then Except.error "upstream 503" else
        Except.ok ⟨"s2", "n1", AgentAdapterType.claudeCode, some 9,
          AgentSessionStatus.running, "t1", none⟩)
      (buildResumeConfig "n1" "/w" "go" "sid1" none)).2.2.2.1 "upstream 503"
      rfl rfl).2⟩

/-- The concrete protocol line of claim C7. -/
def initLine : String :=
  "\x7b\"type\":\"system\",\"subtype\":\"init\",\"session_id\":\"abc123\",\"tools\":[\"Read\",\"Write\"],\"model\":\"claude-3\"\x7d"

/-- Claim C7: decoding the concrete init line yields `Init` with session id
`"abc123"` and tools `["Read", "Write"]`; in general a system event with
subtype `"init"` yields `Init` with the session id defaulting to the empty
string when absent, a system event with any other subtype yields no
structured event, and empty/whitespace-only or unparseable lines yield no
event rather than an error. -/
theorem init_line_decoding
    (tr : ToolCallTracker) (cmi : Option String) (now : Nat) :
    parse_and_process_json initLine tr cmi now =
      (some (StructuredEvent.init "abc123" (some "claude-3")
        ["Read", "Write"]), tr, cmi) ∧
    (∀ line sys, parse_claude_event line = some (ClaudeEvent.system sys) →
      sys.subtype = "init" →
      parse_and_process_json line tr cmi now =
        (some (StructuredEvent.init (sys.session_id.getD "") sys.model
          sys.tools), tr, cmi)) ∧
    (∀ line sys, parse_claude_event line = some (ClaudeEvent.system sys) →
      sys.subtype ≠ "init" →
      parse_and_process_json line tr cmi now = (none, tr, cmi)) ∧
    (∀ line, trimChars line.data = [] → parse_claude_event line = none) ∧
    (∀ line, parseJsonChars (trimChars line.data) = none →
      parse_claude_event line = none) := by
  refine ⟨?_, ?_, ?_, ?_, ?_⟩
  · rfl
  · intro line sys hp hsub
    simp only [parse_and_process_json, hp]
    rw [if_pos hsub]
  · intro line sys hp hsub
    simp only [parse_and_process_json, hp]
    rw [if_neg hsub]
  · intro line h
    unfold parse_claude_event
    rw [h]
    simp
  · intro line h
    unfold parse_claude_event
    by_cases he : (trimChars line.data).isEmpty
    · simp [he]
    · simp [he, h]

/-- Witness for the C7 theorem: the concrete init line, a system line with a
non-init subtype, a whitespace-only line, and a malformed line. -/
theorem init_line_decoding_witness :
    parse_and_process_json initLine ToolCallTracker.new none 0 =
      (some (StructuredEvent.init "abc123" (some "claude-3")
        ["Read", "Write"]), ToolCallTracker.new, none) ∧
    parse_and_process_json "\x7b\"type\":\"system\",\"subtype\":\"status\"\x7d"
      ToolCallTracker.new none 0 = (none, ToolCallTracker.new, none) ∧
    parse_claude_event "   " = none ∧
    parse_claude_event "oops not json" = none :=
  ⟨(init_line_decoding ToolCallTracker.new none 0).1,
   (init_line_decoding ToolCallTracker.new none 0).2.2.1
     "\x7b\"type\":\"system\",\"subtype\":\"status\"\x7d"
     ⟨"status", none, [], none, none⟩ rfl (by decide),
   (init_line_decoding ToolCallTracker.new none 0).2.2.2.1 "   " rfl,
   (init_line_decoding ToolCallTracker.new none 0).2.2.2.2 "oops not json"
     rfl⟩

/-- The concrete AskUserQuestion tool input of claim C9. -/
def askInput : Json :=
  Json.obj [("questions", Json.arr [Json.obj
    [("question", Json.str "Pick one"),
     ("options", Json.arr [Json.obj [("label", Json.str "A")],
                           Json.obj [("label", Json.str "B")]])]])]

/-- Claim C9: for a ToolUse block named exactly `"AskUserQuestion"`, a tool
input with a non-empty `questions` array whose first entry has a question
string and a non-empty `options` array yields a `UserInputRequest` (options
as label plus optional description, optional header, multi-select defaulting
to false) — on the concrete input of the claim, question `"Pick one"` with
two options; when the sub-parse yields none the decoder falls back to a
generic `ToolStart`; and the sub-parse yields none whenever the `questions`
array is absent or empty or the first question's `options` array is absent
or empty. -/
theorem ask_user_question_decoding
    (tr : ToolCallTracker) (cmi : Option String) (now : Nat) :
    parse_ask_user_question "t1" askInput "m1" =
      some (StructuredEvent.userInputRequest "t1" "Pick one" none
        [⟨"A", none⟩, ⟨"B", none⟩] false "m1") ∧
    (∀ line a id input,
      parse_claude_event line = some (ClaudeEvent.assistant a) →
      a.message.content.head? =
        some (ContentBlock.toolUse id "AskUserQuestion" input) →
      (∀ ev, parse_ask_user_question id input a.message.id = some ev →
        parse_and_process_json line tr cmi now =
          (some ev, tr.start_tool id "AskUserQuestion" now a.message.id,
           some a.message.id)) ∧
      (parse_ask_user_question id input a.message.id = none →
        parse_and_process_json line tr cmi now =
          (some (StructuredEvent.toolStart id "AskUserQuestion" input
            a.message.id),
           tr.start_tool id "AskUserQuestion" now a.message.id,
           some a.message.id))) ∧
    (∀ t m input, (getF input "questions").bind jAsArr = none →
      parse_ask_user_question t input m = none) ∧
    (∀ t m input, (getF input "questions").bind jAsArr = some [] →
      parse_ask_user_question t input m = none) ∧
    (∀ t m input fq rest,
      (getF input "questions").bind jAsArr = some (fq :: rest) →
      ((getF fq "options").bind jAsArr = none ∨
       (getF fq "options").bind jAsArr = some []) →
      parse_ask_user_question t input m = none) := by
  refine ⟨rfl, ?_, ?_, ?_, ?_⟩
  · intro line a id input hp hhead
    constructor
    · intro ev hev
      simp [parse_and_process_json, hp, hhead, hev]
    · intro hnone
      simp [parse_and_process_json, hp, hhead, hnone]
  · intro t m input h
    simp [parse_ask_user_question, h]
  · intro t m input h
    simp [parse_ask_user_question, h]
  · intro t m input fq rest hq hopt
    rcases hopt with ho | ho <;>
      cases hqt : (getF fq "question").bind jAsStr <;>
        simp [parse_ask_user_question, hq, hqt, ho]

set_option maxRecDepth 8192 in
/-- Witness for the C9 theorem: a concrete assistant line whose first block
is an AskUserQuestion tool use with the claim's input yields the
`UserInputRequest`; an input with an empty options array yields none. -/
theorem ask_user_question_decoding_witness :
    parse_and_process_json "\x7b\"type\":\"assistant\",\"message\":\x7b\"id\":\"m1\",\"content\":[\x7b\"type\":\"tool_use\",\"id\":\"t1\",\"name\":\"AskUserQuestion\",\"input\":\x7b\"questions\":[\x7b\"question\":\"Pick one\",\"options\":[\x7b\"label\":\"A\"\x7d,\x7b\"label\":\"B\"\x7d]\x7d]\x7d\x7d]\x7d\x7d"
      ToolCallTracker.new none 0 =
      (some (StructuredEvent.userInputRequest "t1" "Pick one" none
        [⟨"A", none⟩, ⟨"B", none⟩] false "m1"),
       ToolCallTracker.new.start_tool "t1" "AskUserQuestion" 0 "m1",
       some "m1") ∧
    parse_ask_user_question "t9"
      (Json.obj [("questions", Json.arr [Json.obj
        [("question", Json.str "Pick"), ("options", Json.arr [])]])])
      "m9" = none :=
  ⟨((ask_user_question_decoding ToolCallTracker.new none 0).2.1
      "\x7b\"type\":\"assistant\",\"message\":\x7b\"id\":\"m1\",\"content\":[\x7b\"type\":\"tool_use\",\"id\":\"t1\",\"name\":\"AskUserQuestion\",\"input\":\x7b\"questions\":[\x7b\"question\":\"Pick one\",\"options\":[\x7b\"label\":\"A\"\x7d,\x7b\"label\":\"B\"\x7d]\x7d]\x7d\x7d]\x7d\x7d"
      ⟨⟨"m1", [ContentBlock.toolUse "t1" "AskUserQuestion" askInput], none,
        none, none⟩, none⟩ "t1" askInput rfl rfl).1
      (StructuredEvent.userInputRequest "t1" "Pick one" none
        [⟨"A", none⟩, ⟨"B", none⟩] false "m1") rfl,
   (ask_user_question_decoding ToolCallTracker.new none 0).2.2.2.2 "t9" "m9"
      (Json.obj [("questions", Json.arr [Json.obj
        [("question", Json.str "Pick"), ("options", Json.arr [])]])])
      (Json.obj [("question", Json.str "Pick"), ("options", Json.arr [])])
      [] rfl (Or.inr rfl)⟩

/-- Does a stdout line decode to a `UserInputRequest`?  (Depends only on the
line's content, not on the tracker state.) -/
def decodesToUserInput (c : String) : Bool :=
  match parse_claude_event c with
  | some (ClaudeEvent.assistant a) =>
    match a.message.content.head? with
    | some (ContentBlock.toolUse id name input) =>
      name = "AskUserQuestion" &&
        (parse_ask_user_question id input a.message.id).isSome
    | _ => false
  | _ => false

/-- Does processing this output set the streamer's pending-input flag? -/
def stepSetsPending (o : AgentOutput) : Bool :=
  (o.output_type = AgentOutputType.stdout) && decodesToUserInput o.content

/-- A successful AskUserQuestion sub-parse always yields a
`UserInputRequest`. -/
theorem parse_ask_shape (t : String) (input : Json) (m : String)
    (ev : StructuredEvent) (h : parse_ask_user_question t input m = some ev) :
    isUIR (some ev) = true := by
  unfold parse_ask_user_question at h
  repeat' split at h
  all_goals try exact Option.noConfusion h
  simp only [] at h
  split at h
  · exact Option.noConfusion h
  · rw [← Option.some.inj h]
    rfl

/-- Whether the decoder yields a `UserInputRequest` is independent of the
tracker and message-id state. -/
theorem isUIR_parse_eq (c : String) (tr : ToolCallTracker)
    (cmi : Option String) (now : Nat) :
    isUIR (parse_and_process_json c tr cmi now).1 = decodesToUserInput c := by
  unfold parse_and_process_json decodesToUserInput
  cases hp : parse_claude_event c
  · rfl
  case some ev =>
    cases ev
    case system sys =>
      by_cases hs : sys.subtype = "init" <;> simp [hs, isUIR]
    case assistant a =>
      cases hh : a.message.content.head?
      · simp [hh, isUIR]
      case some block =>
        cases block
        case thinking th sig => simp [hh, isUIR]
        case toolUse id name input =>
          by_cases hn : name = "AskUserQuestion"
          · subst hn
            rcases hpa : parse_ask_user_question id input a.message.id
              with _ | ev2
            · simp [hh, hpa, isUIR]
            · simp [hh, hpa,
                parse_ask_shape id input a.message.id ev2 hpa]
          · simp [hh, hn, isUIR]
        case text t => simp [hh, isUIR]
    case user u =>
      cases hh : u.message.content.head?
      · simp [hh, isUIR]
      case some block =>
        cases block
        simp [hh, isUIR]
    case result res => simp [isUIR]

/-- A non-breaking loop iteration writes no session status, emits no
completion notification, and leaves the emitted-once flag unchanged. -/
theorem streamStep_no_break (o : AgentOutput) (st : StreamState) (now : Nat)
    (h : (streamStep o st now).2.2 = false) :
    (streamStep o st now).2.1.statusWrites = [] ∧
    (streamStep o st now).2.1.completeEmits = [] ∧
    (streamStep o st now).1.complete_emitted = st.complete_emitted := by
  cases ho : o.output_type
  all_goals simp [streamStep, ho] at h ⊢

/-- Every loop iteration updates the pending flag exactly by whether the
output is a stdout line decoding to a `UserInputRequest`. -/
theorem streamStep_pending (o : AgentOutput) (st : StreamState) (now : Nat) :
    (streamStep o st now).1.pending_user_input =
      (st.pending_user_input || stepSetsPending o) := by
  cases ho : o.output_type
  case stdout => simp [streamStep, ho, stepSetsPending, isUIR_parse_eq]
  all_goals simp [streamStep, ho, stepSetsPending, isUIR]

/-- Draining to channel closure (no break) accumulates no status writes and
no completion emissions, preserves the emitted-once flag, and ends with the
pending flag set exactly when some processed output decoded to a
`UserInputRequest`. -/
theorem drain_no_break :
    ∀ (events : List AgentOutput) (now : Nat) (st st' : StreamState)
      (eff : StreamEffects),
      drain now events st = (st', eff, false) →
      eff.statusWrites = [] ∧ eff.completeEmits = [] ∧
      st'.complete_emitted = st.complete_emitted ∧
      st'.pending_user_input =
        (st.pending_user_input || events.any stepSetsPending)
  | [], now, st, st', eff, h => by
    simp only [drain, Prod.mk.injEq] at h
    obtain ⟨h1, h2, _⟩ := h
    subst h1
    subst h2
    simp [StreamEffects.empty]
  | o :: rest, now, st, st', eff, h => by
    simp only [drain] at h
    by_cases hb : (streamStep o st now).2.2 = true
    · rw [if_pos hb] at h
      simp only [Prod.mk.injEq] at h
      exact absurd h.2.2 (by simp)
    · rw [if_neg hb] at h
      simp only [Prod.mk.injEq] at h
      obtain ⟨h1, h2, h3⟩ := h
      have hrec := drain_no_break rest (now + 1) (streamStep o st now).1
        (drain (now + 1) rest (streamStep o st now).1).1
        (drain (now + 1) rest (streamStep o st now).1).2.1
        (by rw [← h3])
      have hstep := streamStep_no_break o st now (Bool.not_eq_true _ ▸ hb)
      refine ⟨?_, ?_, ?_, ?_⟩
      · rw [← h2]
        simp [StreamEffects.append, hstep.1, hrec.1]
      · rw [← h2]
        simp [StreamEffects.append, hstep.2.1, hrec.2.1]
      · rw [← h1]
        rw [hrec.2.2.1, hstep.2.2]
      · rw [← h1]
        rw [hrec.2.2.2, streamStep_pending]
        simp [Bool.or_assoc]

/-- Claim C4: when the Output Streamer's channel closes (end of stream, no
earlier Complete/Error break) with the pending-input flag set — which holds
exactly when some processed output decoded to a `UserInputRequest` — the
session status is written as pending and no completion notification is
emitted for that session; when the flag is not set at closure, the status is
written as completed and a success notification is emitted; in every case at
most one completion notification is emitted per session. -/
theorem channel_closure_pending
    (events : List AgentOutput) (st : StreamState) (eff : StreamEffects)
    (hrun : drain 0 events initialStreamState = (st, eff, false)) :
    st.pending_user_input = events.any stepSetsPending ∧
    (st.pending_user_input = true →
      (start_streaming events).statusWrites =
        eff.statusWrites ++ [("pending", true)] ∧
      (start_streaming events).completeEmits = []) ∧
    (st.pending_user_input = false →
      (start_streaming events).statusWrites =
        eff.statusWrites ++ [("completed", true)] ∧
      (start_streaming events).completeEmits =
        [(true, some "Agent process ended")]) ∧
    (start_streaming events).completeEmits.length ≤ 1 := by
  obtain ⟨hsw, hce, hcompl, hpend⟩ :=
    drain_no_break events 0 initialStreamState st eff hrun
  have hsse : start_streaming events = eff.append (closureEffects st) := by
    unfold start_streaming
    rw [hrun]
    rfl
  have hpend2 : st.pending_user_input = events.any stepSetsPending := by
    rw [hpend]
    simp [initialStreamState]
  have hce2 : st.complete_emitted = false := by
    rw [hcompl]
    rfl
  refine ⟨hpend2, ?_, ?_, ?_⟩
  · intro hp
    rw [hsse]
    unfold closureEffects
    rw [if_pos hp]
    constructor
    · simp [StreamEffects.append]
    · simp [StreamEffects.append, hce]
  · intro hp
    rw [hsse]
    unfold closureEffects
    rw [if_neg (by simp [hp])]
    rw [hce2]
    constructor
    · simp [StreamEffects.append]
    · simp [StreamEffects.append, hce]
  · rw [hsse]
    unfold closureEffects
    by_cases hp : st.pending_user_input
    · rw [if_pos hp]
      simp [StreamEffects.append, hce]
    · rw [if_neg hp]
      rw [hce2]
      simp [StreamEffects.append, hce]

set_option maxRecDepth 8192 in
/-- Witness for the C4 theorem: a session that saw one AskUserQuestion
stdout line and then channel closure ends pending with no completion
notification; a session whose channel closes immediately ends completed
with exactly one success notification. -/
theorem channel_closure_pending_witness :
    (start_streaming [⟨AgentOutputType.stdout, "\x7b\"type\":\"assistant\",\"message\":\x7b\"id\":\"m1\",\"content\":[\x7b\"type\":\"tool_use\",\"id\":\"t1\",\"name\":\"AskUserQuestion\",\"input\":\x7b\"questions\":[\x7b\"question\":\"Pick one\",\"options\":[\x7b\"label\":\"A\"\x7d,\x7b\"label\":\"B\"\x7d]\x7d]\x7d\x7d]\x7d\x7d",
      "ts"⟩]).statusWrites = [("pending", true)] ∧
    (start_streaming [⟨AgentOutputType.stdout, "\x7b\"type\":\"assistant\",\"message\":\x7b\"id\":\"m1\",\"content\":[\x7b\"type\":\"tool_use\",\"id\":\"t1\",\"name\":\"AskUserQuestion\",\"input\":\x7b\"questions\":[\x7b\"question\":\"Pick one\",\"options\":[\x7b\"label\":\"A\"\x7d,\x7b\"label\":\"B\"\x7d]\x7d]\x7d\x7d]\x7d\x7d",
      "ts"⟩]).completeEmits = [] ∧
    (start_streaming ([] : List AgentOutput)).statusWrites =
      [("completed", true)] ∧
    (start_streaming ([] : List AgentOutput)).completeEmits =
      [(true, some "Agent process ended")] :=
  ⟨((channel_closure_pending
      [⟨AgentOutputType.stdout, "\x7b\"type\":\"assistant\",\"message\":\x7b\"id\":\"m1\",\"content\":[\x7b\"type\":\"tool_use\",\"id\":\"t1\",\"name\":\"AskUserQuestion\",\"input\":\x7b\"questions\":[\x7b\"question\":\"Pick one\",\"options\":[\x7b\"label\":\"A\"\x7d,\x7b\"label\":\"B\"\x7d]\x7d]\x7d\x7d]\x7d\x7d",
        "ts"⟩]
      ⟨⟨[("t1", "AskUserQuestion", 0, "m1")]⟩, some "m1", true, false⟩
      ⟨[], [], [("\x7b\"type\":\"assistant\",\"message\":\x7b\"id\":\"m1\",\"content\":[\x7b\"type\":\"tool_use\",\"id\":\"t1\",\"name\":\"AskUserQuestion\",\"input\":\x7b\"questions\":[\x7b\"question\":\"Pick one\",\"options\":[\x7b\"label\":\"A\"\x7d,\x7b\"label\":\"B\"\x7d]\x7d]\x7d\x7d]\x7d\x7d",
        MessageType.code, false)], []⟩ rfl).2.1 rfl).1,
   ((channel_closure_pending
      [⟨AgentOutputType.stdout, "\x7b\"type\":\"assistant\",\"message\":\x7b\"id\":\"m1\",\"content\":[\x7b\"type\":\"tool_use\",\"id\":\"t1\",\"name\":\"AskUserQuestion\",\"input\":\x7b\"questions\":[\x7b\"question\":\"Pick one\",\"options\":[\x7b\"label\":\"A\"\x7d,\x7b\"label\":\"B\"\x7d]\x7d]\x7d\x7d]\x7d\x7d",
        "ts"⟩]
      ⟨⟨[("t1", "AskUserQuestion", 0, "m1")]⟩, some "m1", true, false⟩
      ⟨[], [], [("\x7b\"type\":\"assistant\",\"message\":\x7b\"id\":\"m1\",\"content\":[\x7b\"type\":\"tool_use\",\"id\":\"t1\",\"name\":\"AskUserQuestion\",\"input\":\x7b\"questions\":[\x7b\"question\":\"Pick one\",\"options\":[\x7b\"label\":\"A\"\x7d,\x7b\"label\":\"B\"\x7d]\x7d]\x7d\x7d]\x7d\x7d",
        MessageType.code, false)], []⟩ rfl).2.1 rfl).2,
   ((channel_closure_pending [] initialStreamState StreamEffects.empty
      rfl).2.2.1 rfl).1,
   ((channel_closure_pending [] initialStreamState StreamEffects.empty
      rfl).2.2.1 rfl).2⟩

end Caspian
